import Mathlib

deriving instance DecidableEq for Except

/-!
Verification of the rocket networking plugins (bridge.go and veth.go) against
their specification.  The two Go files are shallowly embedded: IPv4 addresses
become natural numbers below 2^32, kernel state (links, addresses, routes)
becomes an explicit record threaded through every operation, and every fallible
external call (the IPAM delegate, netlink primitives) is driven by an explicit
environment.  Every kernel call that the plugins attempt is recorded in a
trace, so that frame claims (no mutation attempted) are statable.
-/

namespace Rkt

/-- An IPv4 network as Go net.IPNet: an address (natural number below 2^32,
big-endian interpretation of the four octets) together with a mask given as a
number of leading one bits. -/
structure IPNet where
  ip : Nat
  prefixLen : Nat
deriving DecidableEq

/-- Builds the natural number denoted by dotted-quad a.b.c.d. -/
def ip4 (a b c d : Nat) : Nat :=
  ((a * 256 + b) * 256 + c) * 256 + d

/-- Go ip.Mask(mask): keep the leading prefixLen bits of the address and zero
the rest (the network identifier). -/
def maskIP (ip : Nat) (plen : Nat) : Nat :=
  ip / 2 ^ (32 - plen) * 2 ^ (32 - plen)

/-- The network identifier of an IPNet, as computed by ipn.IP.Mask(ipn.Mask)
in calcGatewayIP (bridge.go line 151). -/
def maskIPNet (ipn : IPNet) : Nat :=
  maskIP ipn.ip ipn.prefixLen

/-- Modelled from the spec: util.NextIP (outside src) takes the next address,
host offset +1 from its argument. -/
def nextIP (ip : Nat) : Nat :=
  ip + 1

/-- Embeds calcGatewayIP (bridge.go lines 150-153): mask the address to its
network identifier, then take the next IP. -/
def calcGatewayIP (ipn : IPNet) : Nat :=
  nextIP (maskIPNet ipn)

/-- Dotted-quad rendering of an IPv4 address, as Go net.IP.String(). -/
def ip4String (ip : Nat) : String :=
  toString (ip / 2 ^ 24 % 256) ++ "." ++ toString (ip / 2 ^ 16 % 256) ++ "."
    ++ toString (ip / 2 ^ 8 % 256) ++ "." ++ toString (ip % 256)

/-- Go net.IPNet.String(): the address followed by a slash and the prefix
length.  ensureBridgeAddr compares bridge addresses with this rendering. -/
def ipNetString (ipn : IPNet) : String :=
  ip4String ipn.ip ++ "/" ++ toString ipn.prefixLen

/-- Kind of a netlink device. -/
inductive LinkKind where
  | bridge
  | veth
  | other
deriving DecidableEq

/-- A network device: name, kind, administrative state, optional master
device, and its list of AF_INET addresses. -/
structure Link where
  name : String
  kind : LinkKind
  up : Bool
  master : Option String
  addrs : List IPNet
deriving DecidableEq

/-- A freshly created, administratively down device with no addresses. -/
def mkLink (name : String) (kind : LinkKind) : Link :=
  ⟨name, kind, false, none, []⟩

/-- A host route: destination network, optional gateway, output device. -/
structure Route where
  dst : IPNet
  gw : Option Nat
  dev : String
deriving DecidableEq

/-- Kernel operations the plugins attempt, recorded in order.  linkGet is a
read (LinkByName / AddrList list the state); the others mutate. -/
inductive KOp where
  | linkAdd (name : String)
  | linkGet (name : String)
  | linkSetUp (name : String)
  | linkSetMaster (name : String) (master : String)
  | linkDel (name : String)
  | addrList (name : String)
  | addrAdd (dev : String) (ip : Option Nat) (plen : Nat)
  | routeAdd (dst : IPNet) (gw : Option Nat) (dev : String)
  | vethPairCreate (entropy : String) (ifName : String)
  | applyAddr (ifName : String)
deriving DecidableEq

/-- The world the plugins act on: host-namespace links and routes, the links
of the target container namespace, and the trace of attempted kernel
operations. -/
structure World where
  links : List Link
  routes : List Route
  contLinks : List Link
  trace : List KOp
deriving DecidableEq

/-- Raw kernel error codes the Go code compares against. -/
inductive SysErr where
  | eexist
  | enoent
  | einval
  | other (n : Nat)
deriving DecidableEq

/-- The wrapped errors returned by the plugin functions, mirroring the
fmt.Errorf calls of bridge.go and veth.go. -/
inductive Err where
  | badUUID (s : String)
  | loadNetFailed (conf : String)
  | delegate (msg : String)
  | conflictAddr (name : String) (ipnStr : String)
  | addrAddFailed (name : String)
  | lookupFailed (name : String)
  | notBridge (name : String)
  | linkAddFailed (name : String)
  | bridgeFailed (name : String)
  | setupVethFailed (msg : String)
  | applyIPFailed (msg : String)
  | setMasterFailed (veth : String) (br : String)
  | vethAddrAddFailed (msg : String)
  | routeAddFailed (dev : String)
deriving DecidableEq

/-- The result of the IPAM delegate (ipam.IPConfig): the assigned address and
the optional gateway.  The Routes field of the Go struct is unused by both
plugins and omitted. -/
structure IPConfig where
  ip : IPNet
  gateway : Option Nat
deriving DecidableEq

/-- The fields of the bridge plugin network descriptor before defaulting:
optional device name, gateway-mode flag, IPAM plugin identifier. -/
structure BridgeNetDesc where
  brName : Option String
  isGW : Bool
  ipamType : String

/-- The loaded bridge plugin configuration (type Net of bridge.go). -/
structure BridgeNet where
  brName : String
  isGW : Bool
  ipamType : String

/-- The environment: outcomes of the external collaborators (configuration
loader input, IPAM delegate) and injected failures of the fallible kernel
primitives.  none means the corresponding kernel call succeeds. -/
structure Env where
  bridgeNetDesc : Except String BridgeNetDesc
  vethNetOk : Bool
  ipamResult : Except String IPConfig
  linkAddErr : Option SysErr
  setupVethErr : Option String
  applyIPErr : Option String
  hostLookupErr : Option String
  setMasterErr : Option String
  addrAddErr : Option String
  routeAddErr : Option SysErr

/-- First link with the given name, as the kernel resolves names. -/
def findLinkIn : List Link → String → Option Link
  | [], _ => none
  | l :: ls, n => if l.name = n then some l else findLinkIn ls n

/-- Updates the first link with the given name, leaving the rest alone. -/
def updateLinks : List Link → String → (Link → Link) → List Link
  | [], _, _ => []
  | l :: ls, n, f => if l.name = n then f l :: ls else l :: updateLinks ls n f

/-- netlink.AddrList on the named device: its AF_INET addresses, empty when
the device is absent (the ENOENT case bridge.go line 50 tolerates). -/
def addrListOf (w : World) (name : String) : List IPNet :=
  match findLinkIn w.links name with
  | some l => l.addrs
  | none => []

/-- netlink.LinkAdd: fails with EEXIST when a device of that name exists,
otherwise creates the device (or fails with an injected kernel error). -/
def linkAdd (env : Env) (name : String) (kind : LinkKind) (w : World) :
    Except SysErr Unit × World :=
  let w := { w with trace := w.trace ++ [KOp.linkAdd name] }
  match findLinkIn w.links name with
  | some _ => (Except.error SysErr.eexist, w)
  | none =>
    match env.linkAddErr with
    | some e => (Except.error e, w)
    | none => (Except.ok (), { w with links := w.links ++ [mkLink name kind] })

/-- Embeds bridgeByName (bridge.go lines 73-83): look the device up by name;
fail if absent; fail if present but not a bridge. -/
def bridgeByName (w : World) (name : String) : Except Err Link × World :=
  let w := { w with trace := w.trace ++ [KOp.linkGet name] }
  match findLinkIn w.links name with
  | none => (Except.error (Err.lookupFailed name), w)
  | some l =>
    match l.kind with
    | LinkKind.bridge => (Except.ok l, w)
    | _ => (Except.error (Err.notBridge name), w)

/-- Embeds ensureBridgeAddr (bridge.go lines 48-71): list the bridge
addresses; when some exist, succeed without mutation if one renders to the
same string as the requested address+prefix and fail with the conflict error
otherwise; when none exist, add the requested address. -/
def ensureBridgeAddr (env : Env) (brName : String) (ipn : IPNet) (w : World) :
    Except Err Unit × World :=
  let w := { w with trace := w.trace ++ [KOp.addrList brName] }
  let addrs := addrListOf w brName
  if addrs.length > 0 then
    let ipnStr := ipNetString ipn
    if addrs.any (fun a => ipNetString a = ipnStr) then (Except.ok (), w)
    else (Except.error (Err.conflictAddr brName ipnStr), w)
  else
    let w := { w with trace := w.trace ++ [KOp.addrAdd brName (some ipn.ip) ipn.prefixLen] }
    match env.addrAddErr with
    | some _ => (Except.error (Err.addrAddFailed brName), w)
    | none =>
      (Except.ok (), { w with
        links := updateLinks w.links brName (fun l => { l with addrs := l.addrs ++ [ipn] }) })

/-- The tail of ensureBridge (bridge.go lines 104-112), shared by the
fresh-creation and the already-exists fallback paths: bring the device up,
then reconcile the requested address when one was given.  LinkSetUp is
modelled as infallible; bridge.go only propagates its error verbatim. -/
def bridgeFinishUp (env : Env) (brName : String) (ipn : Option IPNet) (w : World) :
    Except Err String × World :=
  let w := { w with trace := w.trace ++ [KOp.linkSetUp brName],
                    links := updateLinks w.links brName (fun l => { l with up := true }) }
  match ipn with
  | some i =>
    match ensureBridgeAddr env brName i w with
    | (Except.ok _, w) => (Except.ok brName, w)
    | (Except.error e, w) => (Except.error e, w)
  | none => (Except.ok brName, w)

/-- Embeds ensureBridge (bridge.go lines 85-113): try to create the bridge;
an EEXIST failure falls back to looking the existing device up and validating
it (bridgeByName), any other creation failure is an error; then bring the
device up and reconcile the optional address. -/
def ensureBridge (env : Env) (brName : String) (ipn : Option IPNet) (w : World) :
    Except Err String × World :=
  match linkAdd env brName LinkKind.bridge w with
  | (Except.ok _, w) => bridgeFinishUp env brName ipn w
  | (Except.error e, w) =>
    if e = SysErr.eexist then
      match bridgeByName w brName with
      | (Except.ok _, w) => bridgeFinishUp env brName ipn w
      | (Except.error e2, w) => (Except.error e2, w)
    else (Except.error (Err.linkAddFailed brName), w)

/-- The gateway network of setupBridge (bridge.go lines 156-169): in gateway
mode, the IPAM-supplied gateway when present, otherwise calcGatewayIP of the
assigned network, paired with the mask of the assigned network; outside
gateway mode, none. -/
def gatewayIPNet (isGW : Bool) (ipamConf : IPConfig) : Option IPNet :=
  if isGW then
    let gw := match ipamConf.gateway with
      | some g => g
      | none => calcGatewayIP ipamConf.ip
    some ⟨gw, ipamConf.ip.prefixLen⟩
  else none

/-- Embeds setupBridge (bridge.go lines 155-178): compute the optional
gateway network and ensure the bridge, wrapping any failure. -/
def setupBridge (env : Env) (n : BridgeNet) (ipamConf : IPConfig) (w : World) :
    Except Err String × World :=
  let gwn := gatewayIPNet n.isGW ipamConf
  match ensureBridge env n.brName gwn w with
  | (Except.error _, w) => (Except.error (Err.bridgeFailed n.brName), w)
  | (Except.ok br, w) => (Except.ok br, w)

/-- Modelled from the spec: util.SetupVeth (outside src) derives the host-side
interface name deterministically from the entropy seed. -/
def hostVethNameOf (entropy : String) : String :=
  "veth" ++ entropy

/-- Embeds setupVeth (bridge.go lines 115-148): inside the container
namespace, create the veth pair (container end named ifName, host end moved
into the host namespace) and apply the IPAM address to the container end;
back on the host, re-resolve the host end by name and set its master to the
bridge.  util.SetupVeth and ipam.ApplyIPConfig are outside src and modelled
from the spec as the pair creation and the container-end address
application. -/
def setupVeth (env : Env) (contID : String) (brName : String) (ifName : String)
    (ipConf : IPConfig) (w : World) : Except Err Unit × World :=
  let w := { w with trace := w.trace ++ [KOp.vethPairCreate contID ifName] }
  match env.setupVethErr with
  | some m => (Except.error (Err.setupVethFailed m), w)
  | none =>
  let hostVethName := hostVethNameOf contID
  let w := { w with contLinks := w.contLinks ++ [mkLink ifName LinkKind.veth],
                    links := w.links ++ [mkLink hostVethName LinkKind.veth] }
  let w := { w with trace := w.trace ++ [KOp.applyAddr ifName] }
  match env.applyIPErr with
  | some m => (Except.error (Err.applyIPFailed m), w)
  | none =>
  let w := { w with
    contLinks := updateLinks w.contLinks ifName (fun l => { l with addrs := l.addrs ++ [ipConf.ip] }) }
  let w := { w with trace := w.trace ++ [KOp.linkGet hostVethName] }
  match env.hostLookupErr with
  | some _ => (Except.error (Err.lookupFailed hostVethName), w)
  | none =>
  match findLinkIn w.links hostVethName with
  | none => (Except.error (Err.lookupFailed hostVethName), w)
  | some _ =>
  let w := { w with trace := w.trace ++ [KOp.linkSetMaster hostVethName brName] }
  match env.setMasterErr with
  | some _ => (Except.error (Err.setMasterFailed hostVethName brName), w)
  | none =>
    (Except.ok (), { w with
      links := updateLinks w.links hostVethName (fun l => { l with master := some brName }) })

/-- Modelled from the spec: types.NewUUID (outside src) validates the
container identity as UUID-shaped; modelled as a 36-character check. -/
def parseUUID (s : String) : Option String :=
  if s.length = 36 then some s else none

/-- The bridge plugin configuration as cmdAdd loads it (bridge.go lines
186-191): the device name defaults to rkt0 and the descriptor overrides the
fields it carries. -/
def loadBridgeNet (env : Env) : Except String BridgeNet :=
  match env.bridgeNetDesc with
  | Except.error m => Except.error m
  | Except.ok d =>
    Except.ok ⟨(match d.brName with | some b => b | none => "rkt0"), d.isGW, d.ipamType⟩

/-- The structured result the plugins print on success (rktnet.IfConfig):
the assigned container address. -/
structure IfConfig where
  ip : Nat
deriving DecidableEq

/-- Embeds cmdAdd of the bridge plugin (bridge.go lines 180-211): parse the
container identity, load the configuration, run the IPAM delegate, ensure the
bridge, set up the veth pair, and report the assigned address. -/
def bridgeCmdAdd (env : Env) (contID netns netConf ifName : String) (w : World) :
    Except Err IfConfig × World :=
  match parseUUID contID with
  | none => (Except.error (Err.badUUID contID), w)
  | some cid =>
  match loadBridgeNet env with
  | Except.error _ => (Except.error (Err.loadNetFailed netConf), w)
  | Except.ok n =>
  match env.ipamResult with
  | Except.error m => (Except.error (Err.delegate m), w)
  | Except.ok ipConf =>
  match setupBridge env n ipConf w with
  | (Except.error e, w) => (Except.error e, w)
  | (Except.ok br, w) =>
  match setupVeth env cid br ifName ipConf w with
  | (Except.error e, w) => (Except.error e, w)
  | (Except.ok _, w) => (Except.ok ⟨ipConf.ip.ip⟩, w)

/-- Modelled from the spec: util.DelLinkByName (outside src) deletes the
named interface in the current namespace if present; absence of the interface
is success, not error. -/
def delLinkByName (ifName : String) (w : World) : Except Err Unit × World :=
  let w := { w with trace := w.trace ++ [KOp.linkGet ifName] }
  match findLinkIn w.contLinks ifName with
  | none => (Except.ok (), w)
  | some _ =>
    let w := { w with trace := w.trace ++ [KOp.linkDel ifName] }
    (Except.ok (), { w with contLinks := w.contLinks.filter (fun l => l.name ≠ ifName) })

/-- Embeds cmdDel, identical in both plugins (bridge.go lines 213-217,
veth.go lines 98-102): enter the container namespace and delete the named
interface via util.DelLinkByName. -/
def cmdDel (contID netns netConf ifName : String) (w : World) : Except Err Unit × World :=
  delLinkByName ifName w

/-- Modelled from the spec: util.AddHostRoute (outside src) installs a host
route with the given destination, gateway and device; the kernel signals
EEXIST when a route to that destination via that device already exists. -/
def addHostRoute (env : Env) (dst : IPNet) (gw : Option Nat) (dev : String) (w : World) :
    Except SysErr Unit × World :=
  let w := { w with trace := w.trace ++ [KOp.routeAdd dst gw dev] }
  if w.routes.any (fun r => r.dst = dst ∧ r.dev = dev) then (Except.error SysErr.eexist, w)
  else
    match env.routeAddErr with
    | some e => (Except.error e, w)
    | none => (Except.ok (), { w with routes := w.routes ++ [⟨dst, gw, dev⟩] })

/-- Embeds cmdAdd of the veth plugin (veth.go lines 38-96): load the
configuration, run the IPAM delegate, create the veth pair inside the
container namespace (entropy = container identity concatenated with the
interface name) and apply the IPAM address there, re-resolve the host end,
assign it the IPAM gateway with a /31 mask, and install a host route to that
same network, treating route-already-exists as success. -/
def vethCmdAdd (env : Env) (contID netns netConf ifName args : String) (w : World) :
    Except Err IfConfig × World :=
  if env.vethNetOk = false then (Except.error (Err.loadNetFailed netConf), w)
  else
  match env.ipamResult with
  | Except.error m => (Except.error (Err.delegate m), w)
  | Except.ok ipConf =>
  let entropy := contID ++ ifName
  let w := { w with trace := w.trace ++ [KOp.vethPairCreate entropy ifName] }
  match env.setupVethErr with
  | some m => (Except.error (Err.setupVethFailed m), w)
  | none =>
  let hostVethName := hostVethNameOf entropy
  let w := { w with contLinks := w.contLinks ++ [mkLink ifName LinkKind.veth],
                    links := w.links ++ [mkLink hostVethName LinkKind.veth] }
  let w := { w with trace := w.trace ++ [KOp.applyAddr ifName] }
  match env.applyIPErr with
  | some m => (Except.error (Err.applyIPFailed m), w)
  | none =>
  let w := { w with
    contLinks := updateLinks w.contLinks ifName (fun l => { l with addrs := l.addrs ++ [ipConf.ip] }) }
  let w := { w with trace := w.trace ++ [KOp.linkGet hostVethName] }
  match env.hostLookupErr with
  | some _ => (Except.error (Err.lookupFailed hostVethName), w)
  | none =>
  match findLinkIn w.links hostVethName with
  | none => (Except.error (Err.lookupFailed hostVethName), w)
  | some _ =>
  let w := { w with trace := w.trace ++ [KOp.addrAdd hostVethName ipConf.gateway 31] }
  match ipConf.gateway with
  | none => (Except.error (Err.vethAddrAddFailed "invalid address"), w)
  | some g =>
  match env.addrAddErr with
  | some m => (Except.error (Err.vethAddrAddFailed m), w)
  | none =>
  let w := { w with
    links := updateLinks w.links hostVethName (fun l => { l with addrs := l.addrs ++ [⟨g, 31⟩] }) }
  match addHostRoute env ⟨g, 31⟩ none hostVethName w with
  | (Except.error e, w) =>
    if e = SysErr.eexist then (Except.ok ⟨ipConf.ip.ip⟩, w)
    else (Except.error (Err.routeAddFailed hostVethName), w)
  | (Except.ok _, w) => (Except.ok ⟨ipConf.ip.ip⟩, w)

/-- The invocation parameters both plugins read from the environment
variables RKT_NETPLUGIN_COMMAND, _CONTID, _NETNS, _IFNAME, _NETCONF and
(veth plugin only) _ARGS; an unset variable reads as the empty string. -/
structure ProcInput where
  cmd : String
  contID : String
  netns : String
  ifName : String
  netConf : String
  args : String
deriving DecidableEq

/-- The diagnostic lines main can emit, structurally: the fixed
required-variable message, the os.Environ dump, the unknown-command line
naming the verb, and the failing-command line naming the verb and error. -/
inductive DiagLine where
  | requiredMissing
  | envDump (vars : List (String × String))
  | unknownCommand (cmd : String)
  | cmdFailed (cmd : String) (e : Err)
deriving DecidableEq

/-- The observable outcome of one plugin process: exit status, diagnostic
lines, and the final world. -/
structure MainOut where
  exitCode : Nat
  diag : List DiagLine
  world : World
deriving DecidableEq

/-- The os.Environ dump, abstracted to the plugin protocol variables: the
name-value pairs of those that are set (nonempty). -/
def envVarsOf (inp : ProcInput) : List (String × String) :=
  (if inp.cmd ≠ "" then [("RKT_NETPLUGIN_COMMAND", inp.cmd)] else [])
    ++ (if inp.contID ≠ "" then [("RKT_NETPLUGIN_CONTID", inp.contID)] else [])
    ++ (if inp.netns ≠ "" then [("RKT_NETPLUGIN_NETNS", inp.netns)] else [])
    ++ (if inp.args ≠ "" then [("RKT_NETPLUGIN_ARGS", inp.args)] else [])
    ++ (if inp.ifName ≠ "" then [("RKT_NETPLUGIN_IFNAME", inp.ifName)] else [])
    ++ (if inp.netConf ≠ "" then [("RKT_NETPLUGIN_NETCONF", inp.netConf)] else [])

/-- Whether any emitted diagnostic line names the given variable: only the
environment dump carries variable names, and it lists the set ones. -/
def mentionsVar (diag : List DiagLine) (v : String) : Bool :=
  diag.any (fun d =>
    match d with
    | DiagLine.envDump vars => vars.any (fun p => p.1 = v)
    | _ => false)

/-- Embeds main of the bridge plugin (bridge.go lines 219-250): require the
five variables, then dispatch ADD and DEL, failing closed on any other verb;
a command error exits nonzero naming the verb. -/
def bridgeMain (env : Env) (inp : ProcInput) (w : World) : MainOut :=
  if inp.cmd = "" ∨ inp.contID = "" ∨ inp.netns = "" ∨ inp.ifName = "" ∨ inp.netConf = "" then
    ⟨1, [DiagLine.requiredMissing, DiagLine.envDump (envVarsOf inp)], w⟩
  else if inp.cmd = "ADD" then
    match bridgeCmdAdd env inp.contID inp.netns inp.netConf inp.ifName w with
    | (Except.ok _, w) => ⟨0, [], w⟩
    | (Except.error e, w) => ⟨1, [DiagLine.cmdFailed inp.cmd e], w⟩
  else if inp.cmd = "DEL" then
    match cmdDel inp.contID inp.netns inp.netConf inp.ifName w with
    | (Except.ok _, w) => ⟨0, [], w⟩
    | (Except.error e, w) => ⟨1, [DiagLine.cmdFailed inp.cmd e], w⟩
  else ⟨1, [DiagLine.unknownCommand inp.cmd], w⟩

/-- Embeds main of the veth plugin (veth.go lines 104-136): identical
dispatch; RKT_NETPLUGIN_ARGS is read but not required. -/
def vethMain (env : Env) (inp : ProcInput) (w : World) : MainOut :=
  if inp.cmd = "" ∨ inp.contID = "" ∨ inp.netns = "" ∨ inp.ifName = "" ∨ inp.netConf = "" then
    ⟨1, [DiagLine.requiredMissing, DiagLine.envDump (envVarsOf inp)], w⟩
  else if inp.cmd = "ADD" then
    match vethCmdAdd env inp.contID inp.netns inp.netConf inp.ifName inp.args w with
    | (Except.ok _, w) => ⟨0, [], w⟩
    | (Except.error e, w) => ⟨1, [DiagLine.cmdFailed inp.cmd e], w⟩
  else if inp.cmd = "DEL" then
    match cmdDel inp.contID inp.netns inp.netConf inp.ifName w with
    | (Except.ok _, w) => ⟨0, [], w⟩
    | (Except.error e, w) => ⟨1, [DiagLine.cmdFailed inp.cmd e], w⟩
  else ⟨1, [DiagLine.unknownCommand inp.cmd], w⟩

/-! Helper lemmas about link lookup and update. -/

/-- Trace updates do not change what AddrList sees. -/
theorem addrListOf_trace (w : World) (t : List KOp) (n : String) :
    addrListOf { w with trace := t } n = addrListOf w n := rfl

/-- Looking a name up past a block that does not contain it. -/
theorem findLinkIn_append_none {ls : List Link} {n : String}
    (h : findLinkIn ls n = none) (ls2 : List Link) :
    findLinkIn (ls ++ ls2) n = findLinkIn ls2 n := by
  induction ls with
  | nil => rfl
  | cons l ls ih =>
    by_cases hn : l.name = n
    · simp [findLinkIn, hn] at h
    · simp only [findLinkIn, hn, if_false, List.cons_append] at h ⊢
      exact ih h

/-- Updating a name absent from an initial block leaves that block alone. -/
theorem updateLinks_append_none {ls : List Link} {n : String}
    (h : findLinkIn ls n = none) (ls2 : List Link) (f : Link → Link) :
    updateLinks (ls ++ ls2) n f = ls ++ updateLinks ls2 n f := by
  induction ls with
  | nil => rfl
  | cons l ls ih =>
    by_cases hn : l.name = n
    · simp [findLinkIn, hn] at h
    · simp only [findLinkIn, hn, if_false] at h
      simp only [List.cons_append, updateLinks, hn, if_false, List.cons.injEq, true_and]
      exact ih h

/-- Looking up the updated name finds the updated link, for name-preserving
updates. -/
theorem findLinkIn_updateLinks {ls : List Link} {n : String} {f : Link → Link}
    (hf : ∀ l, (f l).name = l.name) :
    findLinkIn (updateLinks ls n f) n = (findLinkIn ls n).map f := by
  induction ls with
  | nil => rfl
  | cons l ls ih =>
    by_cases hn : l.name = n
    · simp [updateLinks, findLinkIn, hn, hf l]
    · simp [updateLinks, findLinkIn, hn, ih]

/-- A projection untouched by the update function is preserved across the
whole list. -/
theorem updateLinks_map_proj {α : Type} (proj : Link → α) {f : Link → Link}
    (hf : ∀ l, proj (f l) = proj l) (ls : List Link) (n : String) :
    (updateLinks ls n f).map proj = ls.map proj := by
  induction ls with
  | nil => rfl
  | cons l ls ih =>
    by_cases hn : l.name = n
    · simp [updateLinks, hn, hf l]
    · simp [updateLinks, hn, ih]

/-! Concrete fixtures used by witnesses and counterexamples. -/

/-- The empty world: no links, routes, or container interfaces. -/
def w0 : World := ⟨[], [], [], []⟩

/-- A syntactically valid (36-character) container identity. -/
def uuid0 : String := "00112233-4455-6677-8899-aabbccddeeff"

/-- An environment in which every external call succeeds: gateway-mode bridge
configuration, IPAM assigning 10.2.0.5/24 with gateway 10.2.0.1. -/
def envOK : Env :=
  ⟨Except.ok ⟨none, true, "host-local"⟩, true,
   Except.ok ⟨⟨ip4 10 2 0 5, 24⟩, some (ip4 10 2 0 1)⟩,
   none, none, none, none, none, none, none⟩

/-- C1: in gateway mode, the gateway network handed to the bridge is the
IPAM-supplied gateway when one is present; otherwise it is the pure function
of the assigned network that masks the address to its network identifier and
adds one; in particular the computed gateway of 10.1.2.0/24 is 10.1.2.1 and
that of 192.168.5.128/26 is 192.168.5.129. -/
theorem c1_gateway_derivation :
    (∀ (conf : IPConfig) (g : Nat), conf.gateway = some g →
        gatewayIPNet true conf = some ⟨g, conf.ip.prefixLen⟩)
    ∧ (∀ conf : IPConfig, conf.gateway = none →
        gatewayIPNet true conf = some ⟨calcGatewayIP conf.ip, conf.ip.prefixLen⟩)
    ∧ (∀ ipn : IPNet, calcGatewayIP ipn = maskIPNet ipn + 1)
    ∧ calcGatewayIP ⟨ip4 10 1 2 0, 24⟩ = ip4 10 1 2 1
    ∧ calcGatewayIP ⟨ip4 192 168 5 128, 26⟩ = ip4 192 168 5 129 := by
  refine ⟨?_, ?_, ?_, by decide, by decide⟩
  · intro conf g h
    simp [gatewayIPNet, h]
  · intro conf h
    simp [gatewayIPNet, h]
  · intro ipn
    rfl

/-- Witness for C1 at concrete inputs: an IPAM-supplied gateway passes
through unchanged, and a missing one is computed from the network. -/
theorem c1_gateway_derivation_witness :
    gatewayIPNet true ⟨⟨ip4 10 1 2 7, 24⟩, some (ip4 10 1 2 254)⟩
        = some ⟨ip4 10 1 2 254, 24⟩
    ∧ gatewayIPNet true ⟨⟨ip4 10 1 2 7, 24⟩, none⟩ = some ⟨ip4 10 1 2 1, 24⟩ := by
  constructor
  · exact c1_gateway_derivation.1 ⟨⟨ip4 10 1 2 7, 24⟩, some (ip4 10 1 2 254)⟩
      (ip4 10 1 2 254) rfl
  · have h := c1_gateway_derivation.2.1 ⟨⟨ip4 10 1 2 7, 24⟩, none⟩ rfl
    rw [h]
    decide

/-- C2: ensuring the bridge address adds the requested address when the
bridge has none; succeeds without mutation when an existing address equals
the requested one under the string-normalized address+prefix comparison (so
ensuring twice with the same name and address succeeds both times); and fails
with the conflict error, leaving the existing addresses unaltered, when the
bridge has addresses and none matches the requested one. -/
theorem c2_ensure_bridge_addr (env : Env) (brName : String) (ipn : IPNet) (w : World) :
    (∀ l : Link, findLinkIn w.links brName = some l → l.addrs = [] →
        env.addrAddErr = none →
      ensureBridgeAddr env brName ipn w =
        (Except.ok (), { w with
          links := updateLinks w.links brName
            (fun u => { u with addrs := u.addrs ++ [ipn] }),
          trace := (w.trace ++ [KOp.addrList brName])
            ++ [KOp.addrAdd brName (some ipn.ip) ipn.prefixLen] }))
    ∧ (∀ (l : Link) (a : IPNet), findLinkIn w.links brName = some l → a ∈ l.addrs →
        ipNetString a = ipNetString ipn →
      ensureBridgeAddr env brName ipn w =
        (Except.ok (), { w with trace := w.trace ++ [KOp.addrList brName] }))
    ∧ (∀ l : Link, findLinkIn w.links brName = some l → l.addrs ≠ [] →
        (∀ a ∈ l.addrs, ipNetString a ≠ ipNetString ipn) →
      ensureBridgeAddr env brName ipn w =
        (Except.error (Err.conflictAddr brName (ipNetString ipn)),
          { w with trace := w.trace ++ [KOp.addrList brName] }))
    ∧ (∀ l : Link, findLinkIn w.links brName = some l → l.addrs = [] →
        env.addrAddErr = none →
      (ensureBridgeAddr env brName ipn w).1 = Except.ok ()
      ∧ (ensureBridgeAddr env brName ipn (ensureBridgeAddr env brName ipn w).2).1
          = Except.ok ()
      ∧ (ensureBridgeAddr env brName ipn (ensureBridgeAddr env brName ipn w).2).2.links
          = (ensureBridgeAddr env brName ipn w).2.links) := by
  have h1 : ∀ (v : World) (l : Link), findLinkIn v.links brName = some l →
      l.addrs = [] → env.addrAddErr = none →
      ensureBridgeAddr env brName ipn v =
        (Except.ok (), { v with
          links := updateLinks v.links brName
            (fun u => { u with addrs := u.addrs ++ [ipn] }),
          trace := (v.trace ++ [KOp.addrList brName])
            ++ [KOp.addrAdd brName (some ipn.ip) ipn.prefixLen] }) := by
    intro v l hF hl henv
    simp [ensureBridgeAddr, addrListOf, hF, hl, henv]
  have h2 : ∀ (v : World) (l : Link) (a : IPNet), findLinkIn v.links brName = some l →
      a ∈ l.addrs → ipNetString a = ipNetString ipn →
      ensureBridgeAddr env brName ipn v =
        (Except.ok (), { v with trace := v.trace ++ [KOp.addrList brName] }) := by
    intro v l a hF ha heq
    have hne : l.addrs ≠ [] := List.ne_nil_of_mem ha
    have hany : l.addrs.any (fun b => ipNetString b = ipNetString ipn) = true :=
      List.any_eq_true.mpr ⟨a, ha, by simp [heq]⟩
    simp [ensureBridgeAddr, addrListOf, hF, hne, hany]
  have h3 : ∀ (v : World) (l : Link), findLinkIn v.links brName = some l →
      l.addrs ≠ [] → (∀ a ∈ l.addrs, ipNetString a ≠ ipNetString ipn) →
      ensureBridgeAddr env brName ipn v =
        (Except.error (Err.conflictAddr brName (ipNetString ipn)),
          { v with trace := v.trace ++ [KOp.addrList brName] }) := by
    intro v l hF hne hall
    have hany : l.addrs.any (fun b => ipNetString b = ipNetString ipn) = false := by
      simp only [List.any_eq_false, decide_eq_true_eq]
      exact hall
    simp [ensureBridgeAddr, addrListOf, hF, hne, hany]
  refine ⟨h1 w, h2 w, h3 w, ?_⟩
  intro l hF hl henv
  have e1 := h1 w l hF hl henv
  have hF1 : findLinkIn (ensureBridgeAddr env brName ipn w).2.links brName
      = some { l with addrs := [ipn] } := by
    rw [e1]
    show findLinkIn (updateLinks w.links brName _) brName = _
    rw [@findLinkIn_updateLinks w.links brName
      (fun u => { u with addrs := u.addrs ++ [ipn] }) (fun u => rfl), hF]
    simp [hl]
  have e2 := h2 (ensureBridgeAddr env brName ipn w).2 { l with addrs := [ipn] } ipn hF1
    (by simp) rfl
  exact ⟨by rw [e1], by rw [e2], by rw [e2]⟩

/-- A world holding one bridge named rkt0 with no addresses. -/
def brEmptyWorld : World := ⟨[⟨"rkt0", LinkKind.bridge, true, none, []⟩], [], [], []⟩

/-- A world holding one bridge named rkt0 with address 10.1.2.1/24. -/
def brAddrWorld : World :=
  ⟨[⟨"rkt0", LinkKind.bridge, true, none, [⟨ip4 10 1 2 1, 24⟩]⟩], [], [], []⟩

/-- Witness for C2 at concrete bridges: adding to an empty bridge succeeds,
re-ensuring the same address succeeds, and a different address conflicts
without altering the bridge. -/
theorem c2_ensure_bridge_addr_witness :
    (ensureBridgeAddr envOK "rkt0" ⟨ip4 10 1 2 1, 24⟩ brEmptyWorld).1 = Except.ok ()
    ∧ (ensureBridgeAddr envOK "rkt0" ⟨ip4 10 1 2 1, 24⟩ brAddrWorld).1 = Except.ok ()
    ∧ (ensureBridgeAddr envOK "rkt0" ⟨ip4 10 9 9 1, 24⟩ brAddrWorld).1
        = Except.error (Err.conflictAddr "rkt0" (ipNetString ⟨ip4 10 9 9 1, 24⟩))
    ∧ (ensureBridgeAddr envOK "rkt0" ⟨ip4 10 9 9 1, 24⟩ brAddrWorld).2.links
        = brAddrWorld.links := by
  have hadd := (c2_ensure_bridge_addr envOK "rkt0" ⟨ip4 10 1 2 1, 24⟩ brEmptyWorld).1
    ⟨"rkt0", LinkKind.bridge, true, none, []⟩ rfl rfl rfl
  have hsame := (c2_ensure_bridge_addr envOK "rkt0" ⟨ip4 10 1 2 1, 24⟩ brAddrWorld).2.1
    ⟨"rkt0", LinkKind.bridge, true, none, [⟨ip4 10 1 2 1, 24⟩]⟩ ⟨ip4 10 1 2 1, 24⟩
    rfl (by decide) rfl
  have hconf := (c2_ensure_bridge_addr envOK "rkt0" ⟨ip4 10 9 9 1, 24⟩ brAddrWorld).2.2.1
    ⟨"rkt0", LinkKind.bridge, true, none, [⟨ip4 10 1 2 1, 24⟩]⟩
    rfl (by decide) (by decide)
  exact ⟨by rw [hadd], by rw [hsame], by rw [hconf], by rw [hconf]⟩

/-- C3: when bridge creation hits the kernel already-exists signal,
ensureBridge does not fail but falls back to looking the existing device up
and validating it (succeeding outright when it is a bridge and no address is
requested); a creation failure other than already-exists is an error; and a
device under the requested name that is not a bridge is a conflict error. -/
theorem c3_ensure_bridge_race_and_conflict (env : Env) (brName : String)
    (ipn : Option IPNet) (w : World) :
    (∀ l : Link, findLinkIn w.links brName = some l → l.kind = LinkKind.bridge →
      ensureBridge env brName ipn w =
        bridgeFinishUp env brName ipn
          { w with trace := (w.trace ++ [KOp.linkAdd brName]) ++ [KOp.linkGet brName] })
    ∧ (∀ l : Link, findLinkIn w.links brName = some l → l.kind = LinkKind.bridge →
        (ensureBridge env brName none w).1 = Except.ok brName)
    ∧ (∀ l : Link, findLinkIn w.links brName = some l → l.kind ≠ LinkKind.bridge →
      ensureBridge env brName ipn w =
        (Except.error (Err.notBridge brName),
          { w with trace := (w.trace ++ [KOp.linkAdd brName]) ++ [KOp.linkGet brName] }))
    ∧ (∀ e : SysErr, findLinkIn w.links brName = none → env.linkAddErr = some e →
        e ≠ SysErr.eexist →
      ensureBridge env brName ipn w =
        (Except.error (Err.linkAddFailed brName),
          { w with trace := w.trace ++ [KOp.linkAdd brName] })) := by
  have h1 : ∀ (j : Option IPNet) (l : Link), findLinkIn w.links brName = some l →
      l.kind = LinkKind.bridge →
      ensureBridge env brName j w =
        bridgeFinishUp env brName j
          { w with trace := (w.trace ++ [KOp.linkAdd brName]) ++ [KOp.linkGet brName] } := by
    intro j l hF hk
    simp [ensureBridge, linkAdd, bridgeByName, hF, hk]
  refine ⟨h1 ipn, ?_, ?_, ?_⟩
  · intro l hF hk
    rw [h1 none l hF hk]
    rfl
  · intro l hF hk
    cases hkind : l.kind with
    | bridge => exact absurd hkind hk
    | veth => simp [ensureBridge, linkAdd, bridgeByName, hF, hkind]
    | other => simp [ensureBridge, linkAdd, bridgeByName, hF, hkind]
  · intro e hF he hne
    simp [ensureBridge, linkAdd, hF, he, hne]

/-- Witness for C3 at concrete inputs: an existing rkt0 bridge is adopted, a
non-bridge device named rkt0 conflicts, and an injected non-EEXIST creation
failure is an error. -/
theorem c3_ensure_bridge_race_and_conflict_witness :
    (ensureBridge envOK "rkt0" none brEmptyWorld).1 = Except.ok "rkt0"
    ∧ (ensureBridge envOK "rkt0" none
        ⟨[⟨"rkt0", LinkKind.other, false, none, []⟩], [], [], []⟩).1
        = Except.error (Err.notBridge "rkt0")
    ∧ (ensureBridge
        ⟨Except.ok ⟨none, true, "host-local"⟩, true,
          Except.ok ⟨⟨ip4 10 2 0 5, 24⟩, none⟩,
          some (SysErr.other 13), none, none, none, none, none, none⟩
        "rkt0" none w0).1
        = Except.error (Err.linkAddFailed "rkt0") := by
  refine ⟨?_, ?_, ?_⟩
  · exact (c3_ensure_bridge_race_and_conflict envOK "rkt0" none brEmptyWorld).2.1
      ⟨"rkt0", LinkKind.bridge, true, none, []⟩ rfl rfl
  · have h := (c3_ensure_bridge_race_and_conflict envOK "rkt0" none
      ⟨[⟨"rkt0", LinkKind.other, false, none, []⟩], [], [], []⟩).2.2.1
      ⟨"rkt0", LinkKind.other, false, none, []⟩ rfl (by decide)
    rw [h]
  · have h := (c3_ensure_bridge_race_and_conflict
      ⟨Except.ok ⟨none, true, "host-local"⟩, true,
        Except.ok ⟨⟨ip4 10 2 0 5, 24⟩, none⟩,
        some (SysErr.other 13), none, none, none, none, none, none⟩
      "rkt0" none w0).2.2.2 (SysErr.other 13) rfl rfl (by decide)
    rw [h]

/-- C10: with the gateway-mode flag false, setupBridge passes no address to
the bridge-ensure step: a pre-existing bridge under the configured name is
accepted whatever its addresses, the attempted kernel operations are exactly
create (resolving to already-exists), lookup and set-up — no address list,
add, or validation — and every device keeps its addresses. -/
theorem c10_non_gateway_bridge_frame (env : Env) (n : BridgeNet) (ipamConf : IPConfig)
    (w : World) (l : Link) (hgw : n.isGW = false)
    (hF : findLinkIn w.links n.brName = some l) (hk : l.kind = LinkKind.bridge) :
    setupBridge env n ipamConf w =
      (Except.ok n.brName,
        { w with
          links := updateLinks w.links n.brName (fun u => { u with up := true }),
          trace := ((w.trace ++ [KOp.linkAdd n.brName]) ++ [KOp.linkGet n.brName])
            ++ [KOp.linkSetUp n.brName] })
    ∧ (setupBridge env n ipamConf w).2.links.map (fun u => (u.name, u.addrs))
        = w.links.map (fun u => (u.name, u.addrs))
    ∧ (setupBridge env n ipamConf w).2.routes = w.routes := by
  have h1 : setupBridge env n ipamConf w =
      (Except.ok n.brName,
        { w with
          links := updateLinks w.links n.brName (fun u => { u with up := true }),
          trace := ((w.trace ++ [KOp.linkAdd n.brName]) ++ [KOp.linkGet n.brName])
            ++ [KOp.linkSetUp n.brName] }) := by
    simp [setupBridge, gatewayIPNet, hgw, ensureBridge, linkAdd, bridgeByName,
      bridgeFinishUp, hF, hk]
  refine ⟨h1, ?_, ?_⟩
  · rw [h1]
    exact @updateLinks_map_proj (String × List IPNet) (fun u => (u.name, u.addrs))
      (fun u => { u with up := true }) (fun u => rfl) w.links n.brName
  · rw [h1]

/-- Witness for C10: a pre-existing rkt0 bridge carrying the unrelated
address 10.9.9.1/24 is accepted untouched when the gateway flag is off. -/
theorem c10_non_gateway_bridge_frame_witness :
    (setupBridge envOK ⟨"rkt0", false, "host-local"⟩ ⟨⟨ip4 10 2 0 5, 24⟩, none⟩
        ⟨[⟨"rkt0", LinkKind.bridge, false, none, [⟨ip4 10 9 9 1, 24⟩]⟩], [], [], []⟩).1
      = Except.ok "rkt0"
    ∧ (setupBridge envOK ⟨"rkt0", false, "host-local"⟩ ⟨⟨ip4 10 2 0 5, 24⟩, none⟩
        ⟨[⟨"rkt0", LinkKind.bridge, false, none, [⟨ip4 10 9 9 1, 24⟩]⟩], [], [], []⟩).2.links.map
          (fun u => (u.name, u.addrs))
      = [("rkt0", [⟨ip4 10 9 9 1, 24⟩])] := by
  have h := c10_non_gateway_bridge_frame envOK ⟨"rkt0", false, "host-local"⟩
    ⟨⟨ip4 10 2 0 5, 24⟩, none⟩
    ⟨[⟨"rkt0", LinkKind.bridge, false, none, [⟨ip4 10 9 9 1, 24⟩]⟩], [], [], []⟩
    ⟨"rkt0", LinkKind.bridge, false, none, [⟨ip4 10 9 9 1, 24⟩]⟩ rfl rfl rfl
  refine ⟨by rw [h.1], ?_⟩
  rw [h.2.1]
  rfl

/-- C4: in both plugins the IPAM delegate runs before any bridge or veth
creation: when the delegate fails, Attach returns the delegate error with the
world — links, routes, container links and the trace of attempted kernel
operations — completely unchanged. -/
theorem c4_delegate_failure_creates_nothing (env : Env)
    (contID netns netConf ifName args : String) (w : World) (m : String) :
    (∀ (cid : String) (d : BridgeNetDesc), parseUUID contID = some cid →
        env.bridgeNetDesc = Except.ok d → env.ipamResult = Except.error m →
      bridgeCmdAdd env contID netns netConf ifName w
        = (Except.error (Err.delegate m), w))
    ∧ (env.vethNetOk = true → env.ipamResult = Except.error m →
      vethCmdAdd env contID netns netConf ifName args w
        = (Except.error (Err.delegate m), w)) := by
  constructor
  · intro cid d hu hd hi
    simp [bridgeCmdAdd, loadBridgeNet, hu, hd, hi]
  · intro hv hi
    simp [vethCmdAdd, hv, hi]

/-- Witness for C4: with a failing delegate and otherwise valid inputs, both
plugins abort leaving the empty world empty. -/
theorem c4_delegate_failure_creates_nothing_witness :
    bridgeCmdAdd
        ⟨Except.ok ⟨none, true, "host-local"⟩, true, Except.error "no pool",
          none, none, none, none, none, none, none⟩
        uuid0 "/var/ns/1" "net.conf" "eth0" w0
      = (Except.error (Err.delegate "no pool"), w0)
    ∧ vethCmdAdd
        ⟨Except.ok ⟨none, true, "host-local"⟩, true, Except.error "no pool",
          none, none, none, none, none, none, none⟩
        uuid0 "/var/ns/1" "net.conf" "eth0" "" w0
      = (Except.error (Err.delegate "no pool"), w0) := by
  constructor
  · exact (c4_delegate_failure_creates_nothing
      ⟨Except.ok ⟨none, true, "host-local"⟩, true, Except.error "no pool",
        none, none, none, none, none, none, none⟩
      uuid0 "/var/ns/1" "net.conf" "eth0" "" w0 "no pool").1
      uuid0 ⟨none, true, "host-local"⟩ rfl rfl rfl
  · exact (c4_delegate_failure_creates_nothing
      ⟨Except.ok ⟨none, true, "host-local"⟩, true, Except.error "no pool",
        none, none, none, none, none, none, none⟩
      uuid0 "/var/ns/1" "net.conf" "eth0" "" w0 "no pool").2 rfl rfl

/-- An otherwise healthy environment in which applying the IPAM address to
the container end of the veth pair fails. -/
def envApplyFail : Env :=
  ⟨Except.ok ⟨none, true, "host-local"⟩, true,
   Except.ok ⟨⟨ip4 10 2 0 5, 24⟩, none⟩,
   none, none, some "device or resource busy", none, none, none, none⟩

/-- The bridge plugin Attach run against envApplyFail from the empty world. -/
def c5BridgeRun : Except Err IfConfig × World :=
  bridgeCmdAdd envApplyFail uuid0 "/var/ns/1" "net.conf" "eth0" w0

/-- The veth plugin Attach run against envApplyFail from the empty world. -/
def c5VethRun : Except Err IfConfig × World :=
  vethCmdAdd envApplyFail uuid0 "/var/ns/1" "net.conf" "eth0" "" w0

/-- C5, settled against the code at a concrete failing input: when the
address-application step after veth-pair creation fails, both plugins return
that error with the host end of the partially created pair still present and
with no link deletion ever attempted — no best-effort removal of the pair
happens on any failure path. -/
theorem c5_no_pair_cleanup_on_failure :
    c5BridgeRun.1 = Except.error (Err.applyIPFailed "device or resource busy")
    ∧ (findLinkIn c5BridgeRun.2.links (hostVethNameOf uuid0)).isSome = true
    ∧ (c5BridgeRun.2.trace.any (fun op => match op with
        | KOp.linkDel _ => true
        | _ => false)) = false
    ∧ c5VethRun.1 = Except.error (Err.applyIPFailed "device or resource busy")
    ∧ (findLinkIn c5VethRun.2.links (hostVethNameOf (uuid0 ++ "eth0"))).isSome = true
    ∧ (c5VethRun.2.trace.any (fun op => match op with
        | KOp.linkDel _ => true
        | _ => false)) = false := by
  decide

/-- The veth plugin Attach run against envOK (assigned 10.2.0.5/24, gateway
10.2.0.1) from the empty world. -/
def c6Run : Except Err IfConfig × World :=
  vethCmdAdd envOK uuid0 "/var/ns/1" "net.conf" "eth0" "" w0

/-- Counterexample to C6 as stated: on the end-to-end point-to-point example
(assigned 10.2.0.5/24), Attach succeeds, yet the only installed host route is
to the gateway /31 network, and no route with destination 10.2.0.5/32 exists
in the final state or was ever attempted. -/
theorem c6_route_destination_counterexample :
    c6Run.1 = Except.ok ⟨ip4 10 2 0 5⟩
    ∧ c6Run.2.routes
        = [⟨⟨ip4 10 2 0 1, 31⟩, none, hostVethNameOf (uuid0 ++ "eth0")⟩]
    ∧ (c6Run.2.routes.any (fun r => r.dst = (⟨ip4 10 2 0 5, 32⟩ : IPNet))) = false
    ∧ (c6Run.2.trace.any (fun op => match op with
        | KOp.routeAdd dst _ _ => dst = (⟨ip4 10 2 0 5, 32⟩ : IPNet)
        | _ => false)) = false := by
  decide

/-- C6 as amended: in point-to-point mode, after assigning the host-side veth
address, Attach attempts a host route whose destination is the gateway
address with the /31 prefix — the same network just assigned to the host veth
end, not the container address/32 — via that veth with no gateway; and a
route-already-exists outcome of that installation is treated as success. -/
theorem c6_route_amended (env : Env) (contID netns netConf ifName args : String)
    (w : World) (ipc : IPConfig) (g : Nat)
    (hv : env.vethNetOk = true) (hi : env.ipamResult = Except.ok ipc)
    (hg : ipc.gateway = some g) (hsv : env.setupVethErr = none)
    (hap : env.applyIPErr = none) (hlk : env.hostLookupErr = none)
    (haa : env.addrAddErr = none) (hra : env.routeAddErr = none)
    (hfresh : findLinkIn w.links (hostVethNameOf (contID ++ ifName)) = none) :
    KOp.routeAdd ⟨g, 31⟩ none (hostVethNameOf (contID ++ ifName))
        ∈ (vethCmdAdd env contID netns netConf ifName args w).2.trace
    ∧ (w.routes.any (fun r => r.dst = (⟨g, 31⟩ : IPNet)
          ∧ r.dev = hostVethNameOf (contID ++ ifName)) = true →
        (vethCmdAdd env contID netns netConf ifName args w).1
          = Except.ok ⟨ipc.ip.ip⟩) := by
  have hfind2 : findLinkIn
      (w.links ++ [mkLink (hostVethNameOf (contID ++ ifName)) LinkKind.veth])
      (hostVethNameOf (contID ++ ifName))
      = some (mkLink (hostVethNameOf (contID ++ ifName)) LinkKind.veth) := by
    rw [findLinkIn_append_none hfresh]
    simp [findLinkIn, mkLink]
  constructor
  · by_cases hex : ∃ x ∈ w.routes, x.dst = (⟨g, 31⟩ : IPNet)
        ∧ x.dev = hostVethNameOf (contID ++ ifName)
    · simp [vethCmdAdd, hv, hi, hg, hsv, hap, hlk, haa, hra, hfind2,
        addHostRoute, hex]
    · simp [vethCmdAdd, hv, hi, hg, hsv, hap, hlk, haa, hra, hfind2,
        addHostRoute, hex]
  · intro hex
    rw [List.any_eq_true] at hex
    simp only [decide_eq_true_eq] at hex
    simp [vethCmdAdd, hv, hi, hg, hsv, hap, hlk, haa, hra, hfind2,
      addHostRoute, hex]

/-- Witness for the amended C6: with the gateway /31 route already present,
Attach still succeeds, and the attempted route is the gateway /31 via the
veth. -/
theorem c6_route_amended_witness :
    KOp.routeAdd ⟨ip4 10 2 0 1, 31⟩ none (hostVethNameOf (uuid0 ++ "eth0"))
        ∈ (vethCmdAdd envOK uuid0 "/var/ns/1" "net.conf" "eth0" ""
            ⟨[], [⟨⟨ip4 10 2 0 1, 31⟩, none, hostVethNameOf (uuid0 ++ "eth0")⟩], [], []⟩).2.trace
    ∧ (vethCmdAdd envOK uuid0 "/var/ns/1" "net.conf" "eth0" ""
            ⟨[], [⟨⟨ip4 10 2 0 1, 31⟩, none, hostVethNameOf (uuid0 ++ "eth0")⟩], [], []⟩).1
        = Except.ok ⟨ip4 10 2 0 5⟩ := by
  have h := c6_route_amended envOK uuid0 "/var/ns/1" "net.conf" "eth0" ""
    ⟨[], [⟨⟨ip4 10 2 0 1, 31⟩, none, hostVethNameOf (uuid0 ++ "eth0")⟩], [], []⟩
    ⟨⟨ip4 10 2 0 5, 24⟩, some (ip4 10 2 0 1)⟩ (ip4 10 2 0 1)
    rfl rfl rfl rfl rfl rfl rfl rfl rfl
  exact ⟨h.1, h.2 (by decide)⟩

/-- An environment whose IPAM delegate assigns 10.2.0.5/24 but supplies no
gateway. -/
def envNoGw : Env :=
  ⟨Except.ok ⟨none, true, "host-local"⟩, true,
   Except.ok ⟨⟨ip4 10 2 0 5, 24⟩, none⟩,
   none, none, none, none, none, none, none⟩

/-- The veth plugin Attach run against envNoGw from the empty world. -/
def c7Run : Except Err IfConfig × World :=
  vethCmdAdd envNoGw uuid0 "/var/ns/1" "net.conf" "eth0" "" w0

/-- Counterexample to C7 as stated: when the delegate supplies no gateway,
point-to-point Attach does not assign the deterministically computed gateway
(which would be 10.2.0.1 for 10.2.0.5/24) to the host veth end: the address
step runs on the empty gateway and fails, leaving the host veth end with no
address at all. -/
theorem c7_no_gateway_fallback_counterexample :
    c7Run.1 = Except.error (Err.vethAddrAddFailed "invalid address")
    ∧ addrListOf c7Run.2 (hostVethNameOf (uuid0 ++ "eth0")) = []
    ∧ calcGatewayIP ⟨ip4 10 2 0 5, 24⟩ = ip4 10 2 0 1 := by
  decide

/-- C7 as amended: in point-to-point mode the host-side veth end is assigned
exactly the delegate-returned gateway with the /31 two-address prefix; no
deterministic fallback exists — when the delegate supplies no gateway, the
address step is attempted with the empty address and Attach fails. -/
theorem c7_host_veth_address_amended (env : Env)
    (contID netns netConf ifName args : String) (w : World) (ipc : IPConfig)
    (hv : env.vethNetOk = true) (hi : env.ipamResult = Except.ok ipc)
    (hsv : env.setupVethErr = none) (hap : env.applyIPErr = none)
    (hlk : env.hostLookupErr = none) (haa : env.addrAddErr = none)
    (hra : env.routeAddErr = none)
    (hfresh : findLinkIn w.links (hostVethNameOf (contID ++ ifName)) = none) :
    (∀ g : Nat, ipc.gateway = some g →
      addrListOf (vethCmdAdd env contID netns netConf ifName args w).2
          (hostVethNameOf (contID ++ ifName)) = [⟨g, 31⟩])
    ∧ (ipc.gateway = none →
      (vethCmdAdd env contID netns netConf ifName args w).1
          = Except.error (Err.vethAddrAddFailed "invalid address")
      ∧ addrListOf (vethCmdAdd env contID netns netConf ifName args w).2
          (hostVethNameOf (contID ++ ifName)) = []) := by
  have hfind2 : findLinkIn
      (w.links ++ [mkLink (hostVethNameOf (contID ++ ifName)) LinkKind.veth])
      (hostVethNameOf (contID ++ ifName))
      = some (mkLink (hostVethNameOf (contID ++ ifName)) LinkKind.veth) := by
    rw [findLinkIn_append_none hfresh]
    simp [findLinkIn, mkLink]
  constructor
  · intro g hg
    have hupd : findLinkIn
        (updateLinks (w.links ++ [mkLink (hostVethNameOf (contID ++ ifName)) LinkKind.veth])
          (hostVethNameOf (contID ++ ifName))
          (fun l => { l with addrs := l.addrs ++ [⟨g, 31⟩] }))
        (hostVethNameOf (contID ++ ifName))
        = some ⟨hostVethNameOf (contID ++ ifName), LinkKind.veth, false, none, [⟨g, 31⟩]⟩ := by
      rw [@findLinkIn_updateLinks
        (w.links ++ [mkLink (hostVethNameOf (contID ++ ifName)) LinkKind.veth])
        (hostVethNameOf (contID ++ ifName))
        (fun l => { l with addrs := l.addrs ++ [⟨g, 31⟩] }) (fun u => rfl), hfind2]
      rfl
    by_cases hex : ∃ x ∈ w.routes, x.dst = (⟨g, 31⟩ : IPNet)
        ∧ x.dev = hostVethNameOf (contID ++ ifName)
    · simp [vethCmdAdd, hv, hi, hg, hsv, hap, hlk, haa, hra, hfind2,
        addHostRoute, hex, addrListOf, hupd]
    · simp [vethCmdAdd, hv, hi, hg, hsv, hap, hlk, haa, hra, hfind2,
        addHostRoute, hex, addrListOf, hupd]
  · intro hg
    constructor
    · simp [vethCmdAdd, hv, hi, hg, hsv, hap, hlk, haa, hra, hfind2]
    · simp [vethCmdAdd, hv, hi, hg, hsv, hap, hlk, haa, hra, hfind2,
        addrListOf]
      rfl

/-- Witness for the amended C7: with gateway 10.2.0.1 supplied, the host veth
end carries exactly 10.2.0.1/31; with no gateway supplied, Attach fails and
the host veth end carries no address. -/
theorem c7_host_veth_address_amended_witness :
    addrListOf (vethCmdAdd envOK uuid0 "/var/ns/1" "net.conf" "eth0" "" w0).2
        (hostVethNameOf (uuid0 ++ "eth0")) = [⟨ip4 10 2 0 1, 31⟩]
    ∧ (vethCmdAdd envNoGw uuid0 "/var/ns/2" "net.conf" "eth0" "" w0).1
        = Except.error (Err.vethAddrAddFailed "invalid address") := by
  constructor
  · exact (c7_host_veth_address_amended envOK uuid0 "/var/ns/1" "net.conf" "eth0" "" w0
      ⟨⟨ip4 10 2 0 5, 24⟩, some (ip4 10 2 0 1)⟩
      rfl rfl rfl rfl rfl rfl rfl rfl).1 (ip4 10 2 0 1) rfl
  · exact ((c7_host_veth_address_amended envNoGw uuid0 "/var/ns/2" "net.conf" "eth0" "" w0
      ⟨⟨ip4 10 2 0 5, 24⟩, none⟩
      rfl rfl rfl rfl rfl rfl rfl rfl).2 rfl).1

/-- C8: Detach is idempotent in the interface name: for every namespace
handle and interface name, invoking it when the named interface is absent
from the target namespace succeeds, deleting nothing and attempting no
mutation (only the name lookup is recorded). -/
theorem c8_detach_idempotent (contID netns netConf ifName : String) (w : World)
    (h : findLinkIn w.contLinks ifName = none) :
    cmdDel contID netns netConf ifName w
      = (Except.ok (), { w with trace := w.trace ++ [KOp.linkGet ifName] }) := by
  simp [cmdDel, delLinkByName, h]

/-- Witness for C8: deleting eth9 from the empty container namespace
succeeds. -/
theorem c8_detach_idempotent_witness :
    cmdDel uuid0 "/var/ns/1" "net.conf" "eth9" w0
      = (Except.ok (), { w0 with trace := w0.trace ++ [KOp.linkGet "eth9"] }) :=
  c8_detach_idempotent uuid0 "/var/ns/1" "net.conf" "eth9" w0 rfl

/-- An invocation with the container identity missing and every other
required parameter present. -/
def inpNoContID : ProcInput := ⟨"ADD", "", "/var/ns/1", "eth0", "net.conf", ""⟩

/-- Counterexample to C9 as stated: with the container identity missing, the
process exits nonzero and mutates nothing, but no diagnostic line names the
missing parameter — the output is the fixed required-variable message plus
the environment dump, which names exactly the variables that are present,
never the absent one. -/
theorem c9_missing_param_diagnostic_counterexample :
    (bridgeMain envOK inpNoContID w0).exitCode = 1
    ∧ (bridgeMain envOK inpNoContID w0).world = w0
    ∧ (bridgeMain envOK inpNoContID w0).diag
        = [DiagLine.requiredMissing, DiagLine.envDump
            [("RKT_NETPLUGIN_COMMAND", "ADD"), ("RKT_NETPLUGIN_NETNS", "/var/ns/1"),
              ("RKT_NETPLUGIN_IFNAME", "eth0"), ("RKT_NETPLUGIN_NETCONF", "net.conf")]]
    ∧ mentionsVar (bridgeMain envOK inpNoContID w0).diag "RKT_NETPLUGIN_CONTID" = false
    ∧ mentionsVar (vethMain envOK inpNoContID w0).diag "RKT_NETPLUGIN_CONTID" = false := by
  decide

/-- C9 as amended: a missing required parameter makes both plugins exit
nonzero with the world — and hence the trace of attempted kernel operations —
unchanged, emitting the generic required-variable message plus the
environment dump of the set variables (the missing parameter itself is not
named); an unrecognized verb with all parameters present exits nonzero with
no mutation and a diagnostic naming the verb. -/
theorem c9_dispatcher_failures_amended (env : Env) (inp : ProcInput) (w : World) :
    ((inp.cmd = "" ∨ inp.contID = "" ∨ inp.netns = "" ∨ inp.ifName = ""
        ∨ inp.netConf = "") →
      bridgeMain env inp w
          = ⟨1, [DiagLine.requiredMissing, DiagLine.envDump (envVarsOf inp)], w⟩
      ∧ vethMain env inp w
          = ⟨1, [DiagLine.requiredMissing, DiagLine.envDump (envVarsOf inp)], w⟩)
    ∧ (inp.cmd ≠ "" → inp.contID ≠ "" → inp.netns ≠ "" → inp.ifName ≠ ""
        → inp.netConf ≠ "" → inp.cmd ≠ "ADD" → inp.cmd ≠ "DEL" →
      bridgeMain env inp w = ⟨1, [DiagLine.unknownCommand inp.cmd], w⟩
      ∧ vethMain env inp w = ⟨1, [DiagLine.unknownCommand inp.cmd], w⟩) := by
  constructor
  · intro h
    constructor
    · simp [bridgeMain, h]
    · simp [vethMain, h]
  · intro h1 h2 h3 h4 h5 h6 h7
    constructor
    · simp [bridgeMain, h1, h2, h3, h4, h5, h6, h7]
    · simp [vethMain, h1, h2, h3, h4, h5, h6, h7]

/-- Witness for the amended C9: the missing-identity input yields the generic
diagnostic and exit 1, and the verb FOO is rejected by name. -/
theorem c9_dispatcher_failures_amended_witness :
    bridgeMain envOK inpNoContID w0
        = ⟨1, [DiagLine.requiredMissing, DiagLine.envDump (envVarsOf inpNoContID)], w0⟩
    ∧ vethMain envOK ⟨"FOO", uuid0, "/var/ns/1", "eth0", "net.conf", ""⟩ w0
        = ⟨1, [DiagLine.unknownCommand "FOO"], w0⟩ := by
  constructor
  · exact ((c9_dispatcher_failures_amended envOK inpNoContID w0).1
      (Or.inr (Or.inl rfl))).1
  · exact ((c9_dispatcher_failures_amended envOK
      ⟨"FOO", uuid0, "/var/ns/1", "eth0", "net.conf", ""⟩ w0).2
      (by decide) (by decide) (by decide) (by decide) (by decide)
      (by decide) (by decide)).2

end Rkt
